/-
Verification of the skincare-analysis pipeline against its specification.

Shallow embedding of the deterministic core of the repository:
  * src/ml/models/skin_analyzer.py        (ImageQualityChecker, SkinAnalyzer)
  * src/ml/models/face_detector.py        (FaceDetector)
  * src/backend/app/services/skin_analysis_service.py (SkinAnalysisService)
  * src/backend/app/services/face_detection_service.py (detect_face_3d)

Conventions of the embedding:
  * Python floats are modelled as exact rationals (ℚ); `int(x)` on a
    nonnegative product such as `int(h*0.3)` is modelled as exact floor,
    i.e. Nat division `h * 3 / 10`.
  * Python exceptions are modelled with `Except String`; a `try/except`
    block is explicit pattern matching on the `Except` value.
  * A Python `set` of strings is modelled by its canonical first-seen
    membership list together with an arbitrary duplicate-free enumeration
    of that list (Python set iteration order is unspecified).
-/
import Mathlib

namespace Skincare

/-! ### Image quality gate (skin_analyzer.py, ImageQualityChecker) -/

/-- Abstract features of a decoded image that `check_quality` inspects:
pixel dimensions, mean pixel intensity, and Laplacian variance. -/
structure ImageFeatures where
  width : Nat
  height : Nat
  brightness : ℚ
  laplacianVar : ℚ

/-- The dict returned by `ImageQualityChecker.check_quality`. -/
structure QualityReport where
  in_focus : Bool
  detected : Bool
  clear : Bool
  overall_quality : Bool
  deriving DecidableEq, Repr

def minResolutionW : Nat := 640
def minResolutionH : Nat := 480
def minBrightness : ℚ := 40
def maxBrightness : ℚ := 220
def minSharpness : ℚ := 100

/-- `ImageQualityChecker.check_quality`: resolution, lighting and sharpness
checks, with `overall_quality = all([sharpness_ok, resolution_ok, lighting_ok])`. -/
def checkQuality (img : ImageFeatures) : QualityReport :=
  let resolution_ok := decide (minResolutionW ≤ img.width) && decide (minResolutionH ≤ img.height)
  let lighting_ok := decide (minBrightness ≤ img.brightness) && decide (img.brightness ≤ maxBrightness)
  let sharpness_ok := decide (minSharpness ≤ img.laplacianVar)
  { in_focus := sharpness_ok
    detected := resolution_ok
    clear := lighting_ok
    overall_quality := sharpness_ok && resolution_ok && lighting_ok }

/-! ### Severity levels (skin_analysis_service.py, _score_to_severity) -/

/-- The five severity labels, in their documented order. -/
inductive Severity where
  | none
  | mild
  | moderate
  | severe
  | very_severe
  deriving DecidableEq, Repr

/-- Position of a severity label in the documented order. -/
def Severity.rank : Severity → Nat
  | .none => 0
  | .mild => 1
  | .moderate => 2
  | .severe => 3
  | .very_severe => 4

/-- `SkinAnalysisService._score_to_severity`. -/
def scoreToSeverity (score : ℚ) : Severity :=
  if score < 20 then .none
  else if score < 40 then .mild
  else if score < 60 then .moderate
  else if score < 80 then .severe
  else .very_severe

/-! ### Risk level (skin_analyzer.py, SkinAnalyzer._calculate_risk_level) -/

inductive RiskLevel where
  | low
  | moderate
  | high
  | critical
  deriving DecidableEq, Repr

/-- Python `max` over a nonempty collection of rationals (the values of the
concerns dict); returns 0 on the empty list, which `_calculate_risk_level`
never reaches because of its emptiness guard. -/
def maxConfidence : List ℚ → ℚ
  | [] => 0
  | c :: cs => cs.foldl max c

/-- `SkinAnalyzer._calculate_risk_level`, over the list of confidence values
of the concerns dict (one entry per detected concern). -/
def calculateRiskLevel (confidences : List ℚ) : RiskLevel :=
  if confidences.isEmpty then .low
  else
    let maxC := maxConfidence confidences
    let n := confidences.length
    if 9/10 < maxC ∨ 5 < n then .high
    else if 7/10 < maxC ∨ 3 < n then .moderate
    else .low

/-! ### Theorems for the quality gate, severity map and risk level -/

/-- C1: for every input image, the quality report's `overall_quality` flag is
true if and only if all three individual indicators (`in_focus` /sharpness,
`detected` /resolution, `clear` /lighting) are true. -/
theorem c1_overall_quality_is_conjunction (img : ImageFeatures) :
    (checkQuality img).overall_quality =
      ((checkQuality img).in_focus && (checkQuality img).detected && (checkQuality img).clear) := by
  simp [checkQuality]

/-- C2: the score-to-severity map follows the fixed breakpoints
(score<20→none, <40→mild, <60→moderate, <80→severe, else very_severe),
is total (it is a function, so exactly one label results), and is
non-decreasing: a higher score never yields a strictly lower label. -/
theorem c2_severity_breakpoints_total_monotone :
    (∀ s : ℚ, (s < 20 → scoreToSeverity s = .none) ∧
      (20 ≤ s → s < 40 → scoreToSeverity s = .mild) ∧
      (40 ≤ s → s < 60 → scoreToSeverity s = .moderate) ∧
      (60 ≤ s → s < 80 → scoreToSeverity s = .severe) ∧
      (80 ≤ s → scoreToSeverity s = .very_severe)) ∧
    (∀ s t : ℚ, s ≤ t → (scoreToSeverity s).rank ≤ (scoreToSeverity t).rank) := by
  constructor
  · intro s
    refine ⟨fun h => ?_, fun h1 h2 => ?_, fun h1 h2 => ?_, fun h1 h2 => ?_, fun h => ?_⟩ <;>
      · unfold scoreToSeverity
        split_ifs <;> first | rfl | linarith
  · intro s t hst
    unfold scoreToSeverity
    split_ifs <;> simp [Severity.rank] <;> linarith

/-- Witness for C2 at concrete scores. -/
theorem c2_severity_breakpoints_total_monotone_witness :
    scoreToSeverity 45 = .moderate ∧ (scoreToSeverity 19).rank ≤ (scoreToSeverity 85).rank :=
  ⟨(c2_severity_breakpoints_total_monotone.1 45).2.2.1 (by norm_num) (by norm_num),
   c2_severity_breakpoints_total_monotone.2 19 85 (by norm_num)⟩

/-- C4: risk classification is `low` on an empty concern set; otherwise `high`
when max confidence > 0.9 or count > 5, else `moderate` when max confidence
> 0.7 or count > 3, else `low`; and when the high and moderate conditions hold
simultaneously the result is `high`. -/
theorem c4_risk_level_classification :
    calculateRiskLevel [] = .low ∧
    (∀ cs : List ℚ, cs ≠ [] →
      ((9/10 < maxConfidence cs ∨ 5 < cs.length) → calculateRiskLevel cs = .high) ∧
      (¬(9/10 < maxConfidence cs ∨ 5 < cs.length) →
        (7/10 < maxConfidence cs ∨ 3 < cs.length) → calculateRiskLevel cs = .moderate) ∧
      (¬(9/10 < maxConfidence cs ∨ 5 < cs.length) →
        ¬(7/10 < maxConfidence cs ∨ 3 < cs.length) → calculateRiskLevel cs = .low) ∧
      ((9/10 < maxConfidence cs ∨ 5 < cs.length) →
        (7/10 < maxConfidence cs ∨ 3 < cs.length) → calculateRiskLevel cs = .high)) := by
  refine ⟨rfl, fun cs hne => ?_⟩
  have hemp : cs.isEmpty = false := by
    cases cs with
    | nil => exact absurd rfl hne
    | cons a t => rfl
  refine ⟨fun hh => ?_, fun hnh hm => ?_, fun hnh hnm => ?_, fun hh _ => ?_⟩ <;>
    simp only [calculateRiskLevel, hemp, Bool.false_eq_true, if_false] <;>
    first
      | (rw [if_pos hh])
      | (rw [if_neg hnh, if_pos hm])
      | (rw [if_neg hnh, if_neg hnm])

/-- Witness for C4: a set of four concerns with max confidence 0.95 satisfies
both the high and the moderate conditions and is classified `high`. -/
theorem c4_risk_level_classification_witness :
    calculateRiskLevel [19/20, 1/2, 1/2, 1/2] = .high :=
  (c4_risk_level_classification.2 [19/20, 1/2, 1/2, 1/2] (by decide)).2.2.2
    (by left; norm_num [maxConfidence]) (by right; norm_num)

/-! ### Primary-face selection (face_detector.py, FaceDetector.detect_and_align)

`max(faces, key=lambda f: (f.bbox[2]-f.bbox[0]) * (f.bbox[3]-f.bbox[1]))`.
Python `max` keeps the FIRST element attaining the maximal key. -/

/-- A face bounding box `(x1, y1, x2, y2)` in pixel coordinates. -/
structure BBox where
  x1 : Int
  y1 : Int
  x2 : Int
  y2 : Int
  deriving DecidableEq, Repr

/-- Bounding-box area `(x2 - x1) * (y2 - y1)`. -/
def BBox.area (b : BBox) : Int := (b.x2 - b.x1) * (b.y2 - b.y1)

/-- Python `max f (h :: t)` by area: the fold replaces the current best only
when the new key is strictly greater, so the first maximum wins. -/
def primaryFace (h : BBox) (t : List BBox) : BBox :=
  t.foldl (fun best f => if best.area < f.area then f else best) h

/-- `FaceDetector.detect_and_align`'s selection over the detector output:
`None` on an empty list, otherwise `max` by bounding-box area. -/
def selectPrimaryFace : List BBox → Option BBox
  | [] => none
  | h :: t => some (primaryFace h t)

theorem primaryFace_mem (h : BBox) (t : List BBox) : primaryFace h t ∈ h :: t := by
  induction t generalizing h with
  | nil => exact List.mem_singleton.mpr rfl
  | cons a t ih =>
    simp only [primaryFace, List.foldl_cons]
    by_cases hlt : h.area < a.area
    · simp only [if_pos hlt]
      have := ih a
      simp only [List.mem_cons] at this ⊢
      tauto
    · simp only [if_neg hlt]
      have := ih h
      simp only [List.mem_cons] at this ⊢
      tauto

theorem primaryFace_area_max (h : BBox) (t : List BBox) :
    ∀ f ∈ h :: t, f.area ≤ (primaryFace h t).area := by
  induction t generalizing h with
  | nil => intro f hf; rw [List.mem_singleton] at hf; subst hf; exact le_refl _
  | cons a t ih =>
    intro f hf
    simp only [List.mem_cons] at hf
    simp only [primaryFace, List.foldl_cons]
    by_cases hlt : h.area < a.area
    · simp only [if_pos hlt]
      rcases hf with hf | hf | hf
      · rw [hf]; exact le_of_lt (lt_of_lt_of_le hlt (ih a a (List.mem_cons_self a t)))
      · rw [hf]; exact ih a a (List.mem_cons_self a t)
      · exact ih a f (List.mem_cons_of_mem a hf)
    · simp only [if_neg hlt]
      rcases hf with hf | hf | hf
      · rw [hf]; exact ih h h (List.mem_cons_self h t)
      · rw [hf]; exact le_trans (le_of_not_lt hlt) (ih h h (List.mem_cons_self h t))
      · exact ih h f (List.mem_cons_of_mem h hf)

/-- The selected face is the first element of the input whose area reaches the
maximum: the tie-break is input order. -/
theorem primaryFace_first_max (h : BBox) (t : List BBox) :
    (h :: t).find? (fun f => (primaryFace h t).area ≤ f.area) = some (primaryFace h t) := by
  induction t generalizing h with
  | nil => simp [primaryFace, List.find?]
  | cons a t ih =>
    have hstep : primaryFace h (a :: t) =
        if h.area < a.area then primaryFace a t else primaryFace h t := by
      simp only [primaryFace, List.foldl_cons]
      split_ifs <;> rfl
    by_cases hlt : h.area < a.area
    · rw [hstep, if_pos hlt]
      have hmax := primaryFace_area_max a t
      have hha : ¬ ((primaryFace a t).area ≤ h.area) := by
        have : a.area ≤ (primaryFace a t).area := hmax a (List.mem_cons_self a t)
        exact not_le.mpr (lt_of_lt_of_le hlt this)
      rw [List.find?_cons_of_neg _ (by simpa using hha)]
      exact ih a
    · rw [hstep, if_neg hlt]
      have hmax := primaryFace_area_max h t
      by_cases hfirst : (primaryFace h t).area ≤ h.area
      · -- the head already attains the maximum, and the fold keeps the head
        -- whenever no later element strictly exceeds it
        have heq : primaryFace h t = h := by
          have hih := ih h
          rw [List.find?_cons_of_pos _ (by simpa using hfirst)] at hih
          exact (Option.some_injective _ hih).symm
        rw [List.find?_cons_of_pos _ (by simpa using hfirst), heq]
      · have hna : ¬ ((primaryFace h t).area ≤ a.area) := by
          intro hle
          exact hfirst (le_trans hle (le_of_not_lt hlt))
        rw [List.find?_cons_of_neg _ (by simpa using hfirst),
          List.find?_cons_of_neg _ (by simpa using hna)]
        have hres := ih h
        rw [List.find?_cons_of_neg _ (by simpa using hfirst)] at hres
        exact hres

/-- Distinct faces in a pairwise-distinct-area list are determined by their
area. -/
theorem area_inj_of_pairwise {l : List BBox}
    (hpw : l.Pairwise (fun a b => a.area ≠ b.area)) :
    ∀ x ∈ l, ∀ y ∈ l, x.area = y.area → x = y := by
  intro x hx y hy hxy
  by_contra hne
  exact (hpw.forall (fun a b hab => (Ne.symm hab)) hx hy hne) hxy

/-- C5 counterexample: two faces of equal area 100, the face listed first has
x1 = 10 while the other has x1 = 0; the code selects the first listed face,
not the one with leftmost x1. -/
theorem c5_tie_break_is_input_order_not_leftmost_x1 :
    let a : BBox := ⟨10, 0, 20, 10⟩
    let b : BBox := ⟨0, 0, 10, 10⟩
    a.area = b.area ∧ selectPrimaryFace [a, b] = some a ∧ b.x1 < a.x1 := by
  refine ⟨by decide, ?_, by decide⟩
  decide

/-- C5 amended: the locator selects a face of maximal bounding-box area; ties
are broken by FIRST position in the detector's output order (not leftmost x1);
and when all areas are pairwise distinct the selection is independent of the
input order. -/
theorem c5_primary_face_selection (l₁ l₂ : List BBox) (h₁ : l₁ ≠ [])
    (hperm : l₁.Perm l₂)
    (hpw : l₁.Pairwise (fun a b => a.area ≠ b.area)) :
    (∃ p, selectPrimaryFace l₁ = some p ∧ p ∈ l₁ ∧
      (∀ f ∈ l₁, f.area ≤ p.area) ∧
      l₁.find? (fun f => p.area ≤ f.area) = some p) ∧
    selectPrimaryFace l₁ = selectPrimaryFace l₂ := by
  cases l₁ with
  | nil => exact absurd rfl h₁
  | cons h t =>
    constructor
    · exact ⟨primaryFace h t, rfl, primaryFace_mem h t, primaryFace_area_max h t,
        primaryFace_first_max h t⟩
    · cases l₂ with
      | nil => exact absurd hperm.symm (by simp)
      | cons h2 t2 =>
        have hmem1 : primaryFace h t ∈ h :: t := primaryFace_mem h t
        have hmem2 : primaryFace h2 t2 ∈ h :: t := hperm.mem_iff.mpr (primaryFace_mem h2 t2)
        have hle12 : (primaryFace h t).area ≤ (primaryFace h2 t2).area :=
          primaryFace_area_max h2 t2 _ (hperm.mem_iff.mp hmem1)
        have hle21 : (primaryFace h2 t2).area ≤ (primaryFace h t).area :=
          primaryFace_area_max h t _ hmem2
        have := area_inj_of_pairwise hpw _ hmem1 _ hmem2 (le_antisymm hle12 hle21)
        simp only [selectPrimaryFace, this]

/-- Witness for C5 amended: three faces with distinct areas; the 6×6 face is
selected from both orderings. -/
theorem c5_primary_face_selection_witness :
    (∃ p, selectPrimaryFace [⟨0, 0, 4, 4⟩, ⟨0, 0, 6, 6⟩, ⟨0, 0, 2, 2⟩] = some p ∧
      p ∈ ([⟨0, 0, 4, 4⟩, ⟨0, 0, 6, 6⟩, ⟨0, 0, 2, 2⟩] : List BBox) ∧
      (∀ f ∈ ([⟨0, 0, 4, 4⟩, ⟨0, 0, 6, 6⟩, ⟨0, 0, 2, 2⟩] : List BBox), f.area ≤ p.area) ∧
      ([⟨0, 0, 4, 4⟩, ⟨0, 0, 6, 6⟩, ⟨0, 0, 2, 2⟩] : List BBox).find?
        (fun f => p.area ≤ f.area) = some p) ∧
    selectPrimaryFace [⟨0, 0, 4, 4⟩, ⟨0, 0, 6, 6⟩, ⟨0, 0, 2, 2⟩] =
      selectPrimaryFace [⟨0, 0, 6, 6⟩, ⟨0, 0, 2, 2⟩, ⟨0, 0, 4, 4⟩] :=
  c5_primary_face_selection _ _ (by decide) (by decide) (by decide)

/-! ### Skin region segmentation (face_detector.py, FaceDetector.extract_skin_regions)

A numpy slice `face_crop[r1:r2, c1:c2]` is modelled by its four bounds.
`int(h*0.3)` on a nonnegative value is modelled as the exact floor
`h * 3 / 10` (Nat division). -/

/-- Row/column bounds of one rectangular sub-region of the face crop. -/
structure RegionRect where
  rowLo : Nat
  rowHi : Nat
  colLo : Nat
  colHi : Nat
  deriving DecidableEq, Repr

/-- The five anatomical sub-regions produced by the segmenter. -/
structure SkinRegionsRect where
  forehead : RegionRect
  left_cheek : RegionRect
  right_cheek : RegionRect
  nose : RegionRect
  chin : RegionRect
  deriving DecidableEq, Repr

/-- `FaceDetector.extract_skin_regions` on a face crop of height `h` and
width `w`: the slice bounds exactly as written in the source. -/
def extractSkinRegions (h w : Nat) : SkinRegionsRect :=
  { forehead := ⟨0, h * 3 / 10, w * 2 / 10, w * 8 / 10⟩
    left_cheek := ⟨h * 35 / 100, h * 7 / 10, 0, w * 35 / 100⟩
    right_cheek := ⟨h * 35 / 100, h * 7 / 10, w * 65 / 100, w⟩
    nose := ⟨h * 3 / 10, h * 7 / 10, w * 35 / 100, w * 65 / 100⟩
    chin := ⟨h * 7 / 10, h, w * 25 / 100, w * 75 / 100⟩ }

/-- The fractional windows exactly as the claim words them, in particular a
nose region confined to the 35–70% height band. -/
def specSkinRegions (h w : Nat) : SkinRegionsRect :=
  { forehead := ⟨0, h * 3 / 10, w * 2 / 10, w * 8 / 10⟩
    left_cheek := ⟨h * 35 / 100, h * 7 / 10, 0, w * 35 / 100⟩
    right_cheek := ⟨h * 35 / 100, h * 7 / 10, w * 65 / 100, w⟩
    nose := ⟨h * 35 / 100, h * 7 / 10, w * 35 / 100, w * 65 / 100⟩
    chin := ⟨h * 7 / 10, h, w * 25 / 100, w * 75 / 100⟩ }

/-- The claim's fractional windows amended only on the nose region, whose
height band in the code starts at 30% of the crop height, not 35%. -/
def specSkinRegionsAmended (h w : Nat) : SkinRegionsRect :=
  { forehead := ⟨0, h * 3 / 10, w * 2 / 10, w * 8 / 10⟩
    left_cheek := ⟨h * 35 / 100, h * 7 / 10, 0, w * 35 / 100⟩
    right_cheek := ⟨h * 35 / 100, h * 7 / 10, w * 65 / 100, w⟩
    nose := ⟨h * 3 / 10, h * 7 / 10, w * 35 / 100, w * 65 / 100⟩
    chin := ⟨h * 7 / 10, h, w * 25 / 100, w * 75 / 100⟩ }

/-- C9 counterexample: on a 100×100 face crop the code's nose region starts at
row 30 (30% of the height), while the claim's windows put it at row 35
(35–70% height band), so the segmenter does not produce the claimed windows. -/
theorem c9_nose_band_starts_at_30_percent :
    extractSkinRegions 100 100 ≠ specSkinRegions 100 100 ∧
    (extractSkinRegions 100 100).nose.rowLo = 30 ∧
    (specSkinRegions 100 100).nose.rowLo = 35 := by
  refine ⟨?_, rfl, rfl⟩
  decide

/-- C9 amended: for every crop height and width the segmenter produces exactly
the claimed fractional windows with the nose height band corrected to
30–70% of the crop height (all other regions as claimed). -/
theorem c9_skin_regions_fractional_windows (h w : Nat) :
    extractSkinRegions h w = specSkinRegionsAmended h w := rfl

/-! ### Skin analysis service (skin_analysis_service.py)

Timestamps (`analysis_timestamp`) are omitted from the embedding; no claim
mentions them. -/

/-- Penalty table `severity_weights` in `_calculate_overall_score`. Severity
values always come from `_score_to_severity`, so the dict default of 5 for an
unknown key is unreachable and the table is total on the enumeration. -/
def severityWeight : Severity → ℚ
  | .none => 0
  | .mild => 5
  | .moderate => 10
  | .severe => 15
  | .very_severe => 20

/-- Pydantic model `SkinMetrics`. -/
structure SkinMetrics where
  hydration_score : ℚ
  oiliness_score : ℚ
  texture_score : ℚ
  elasticity_score : ℚ
  pore_size_score : ℚ
  skin_tone_evenness : ℚ
  deriving DecidableEq, Repr

/-- `SkinMetrics()` with every field at its default of 50.0. -/
def defaultMetrics : SkinMetrics := ⟨50, 50, 50, 50, 50, 50⟩

/-- Pydantic model `SkinConcern` (service layer). -/
structure SkinConcern where
  concern_type : String
  severity : Severity
  confidence : ℚ
  affected_area : Option String
  recommendations : List String
  deriving DecidableEq, Repr

/-- Python `round(x, 1)` rounds half to even; the integer part of that, on
`10 * x`. -/
def roundHalfEven (q : ℚ) : ℤ :=
  let f := ⌊q⌋
  let r := q - f
  if r < 1/2 then f
  else if 1/2 < r then f + 1
  else if Even f then f else f + 1

/-- `round(x, 1)`: round to one decimal place. -/
def roundTo1 (q : ℚ) : ℚ := (roundHalfEven (10 * q) : ℚ) / 10

/-- `SkinAnalysisService._calculate_overall_score`, as written: mean of the
five listed metric scores, fold of severity penalties, clamp, round. -/
def calculateOverallScore (concerns : List SkinConcern) (m : SkinMetrics) : ℚ :=
  let metricScores := [m.hydration_score, m.texture_score, m.elasticity_score,
    m.pore_size_score, m.skin_tone_evenness]
  let baseScore := metricScores.sum / (metricScores.length : ℚ)
  let concernPenalty := concerns.foldl (fun acc c => acc + severityWeight c.severity) 0
  let finalScore := max 0 (min 100 (baseScore - concernPenalty))
  roundTo1 finalScore

/-- The dict `self.concern_recommendations` (empty list for unknown keys,
matching `dict.get(key, [])`). -/
def concernRecommendations (key : String) : List String :=
  if key = "acne" then
    ["Use a gentle cleanser with salicylic acid",
     "Apply benzoyl peroxide spot treatment",
     "Consider retinoid products for prevention",
     "Avoid touching your face frequently"]
  else if key = "wrinkles" then
    ["Use retinol-based products at night",
     "Apply vitamin C serum in the morning",
     "Use broad-spectrum SPF 30+ daily",
     "Consider peptide-based moisturizers"]
  else if key = "dark_spots" then
    ["Use vitamin C serum daily",
     "Apply niacinamide products",
     "Use AHA exfoliants 2-3 times weekly",
     "Always wear sunscreen SPF 30+"]
  else if key = "dark_circles" then
    ["Get adequate sleep (7-9 hours)",
     "Use caffeine-based eye creams",
     "Apply vitamin K eye treatments",
     "Stay hydrated throughout the day"]
  else if key = "pores" then
    ["Use niacinamide serum regularly",
     "Apply BHA (salicylic acid) products",
     "Use clay masks weekly",
     "Keep skin properly hydrated"]
  else if key = "redness" then
    ["Use gentle, fragrance-free products",
     "Apply azelaic acid treatments",
     "Consider centella asiatica products",
     "Avoid hot water on face"]
  else if key = "dehydration" then
    ["Use hyaluronic acid serums",
     "Apply ceramide-rich moisturizers",
     "Drink adequate water daily",
     "Use a humidifier in dry environments"]
  else []

/-- The three baseline recommendations added first in
`_generate_recommendations`. -/
def baselineRecs : List String :=
  ["Cleanse skin twice daily with gentle cleanser",
   "Apply broad-spectrum SPF 30+ every morning",
   "Moisturize daily based on your skin type"]

/-- Left fold that keeps the first occurrence of each string. -/
def insertFS (acc : List String) (s : String) : List String :=
  if s ∈ acc then acc else acc ++ [s]

/-- First-seen-order duplicate removal: the canonical listing of the members
of the Python set built by `_generate_recommendations`. -/
def dedupFS (l : List String) : List String := l.foldl insertFS []

/-- The membership of the recommendation set: the three baselines plus the
first two lookup-table entries per detected concern, in first-seen order. -/
def recPool (concerns : List SkinConcern) : List String :=
  dedupFS (baselineRecs ++
    concerns.flatMap (fun c => (concernRecommendations c.concern_type).take 2))

/-- `enum` is one possible iteration order of a Python set whose members are
exactly those of `pool`: duplicate-free and member-equal. -/
def isEnumerationOf (enum pool : List String) : Prop :=
  enum.Nodup ∧ (∀ s ∈ enum, s ∈ pool) ∧ (∀ s ∈ pool, s ∈ enum)

instance (enum pool : List String) : Decidable (isEnumerationOf enum pool) := by
  unfold isEnumerationOf
  infer_instance

/-- `list(recommendations)[:10]` over the iteration order `enum` the Python
set produced. -/
def generateRecommendations (enum : List String) : List String := enum.take 10

/-! ### RapidAPI response parsing and the analyze_skin pipeline -/

/-- One sub-dict of the provider payload, e.g. `data["acne"]`, with its
optional `score` and `confidence` entries. -/
structure ConcernData where
  score : Option ℚ
  confidence : Option ℚ
  deriving DecidableEq, Repr

/-- The provider payload fields `_parse_rapidapi_response` reads. A missing
field models an absent dict key. -/
structure RapidApiPayload where
  acne : Option ConcernData := Option.none
  wrinkles : Option ConcernData := Option.none
  dark_spots : Option ConcernData := Option.none
  pigmentation : Option ConcernData := Option.none
  dark_circles : Option ConcernData := Option.none
  pores : Option ConcernData := Option.none
  hydration : Option ConcernData := Option.none
  oiliness : Option ConcernData := Option.none
  texture : Option ConcernData := Option.none
  elasticity : Option ConcernData := Option.none
  evenness : Option ConcernData := Option.none
  skin_type : Option String := Option.none
  skin_age : Option Int := Option.none
  confidence : Option ℚ := Option.none
  image_quality : Option ℚ := Option.none
  deriving Repr

/-- Build one `SkinConcern` from a payload sub-dict: severity from the score
(default 0), dropped when the severity is `none`, confidence default 0.8. -/
def concernFromData (ty : String) (area : Option String) (d : ConcernData) :
    Option SkinConcern :=
  let severity := scoreToSeverity (d.score.getD 0)
  if severity = .none then Option.none
  else some ⟨ty, severity, d.confidence.getD (4/5), area, concernRecommendations ty⟩

/-- The concern list `_parse_rapidapi_response` accumulates, in source order:
acne, wrinkles, dark spots (falling back to the `pigmentation` key), dark
circles, pores. -/
def parseConcerns (p : RapidApiPayload) : List SkinConcern :=
  (match p.acne with
    | some d => (concernFromData "acne" (some "face") d).toList
    | _ => []) ++
  (match p.wrinkles with
    | some d => (concernFromData "wrinkles" (some "forehead, eye area") d).toList
    | _ => []) ++
  (match p.dark_spots, p.pigmentation with
    | some d, _ => (concernFromData "dark_spots" Option.none d).toList
    | Option.none, some d => (concernFromData "dark_spots" Option.none d).toList
    | _, _ => []) ++
  (match p.dark_circles with
    | some d => (concernFromData "dark_circles" (some "under eyes") d).toList
    | _ => []) ++
  (match p.pores with
    | some d => (concernFromData "pores" (some "nose, cheeks") d).toList
    | _ => [])

/-- The `SkinMetrics` built by `_parse_rapidapi_response`; every
`data.get(key, {}).get("score", 50.0)` is an optional lookup with default 50,
and the pore metric is inverted. -/
def parseMetrics (p : RapidApiPayload) : SkinMetrics :=
  { hydration_score := (p.hydration.bind ConcernData.score).getD 50
    oiliness_score := (p.oiliness.bind ConcernData.score).getD 50
    texture_score := (p.texture.bind ConcernData.score).getD 50
    elasticity_score := (p.elasticity.bind ConcernData.score).getD 50
    pore_size_score := 100 - (p.pores.bind ConcernData.score).getD 50
    skin_tone_evenness := (p.evenness.bind ConcernData.score).getD 50 }

/-- The service-layer analysis result (pydantic `SkinAnalysisResult`). -/
structure SkinAnalysisResult where
  overall_score : ℚ
  skin_type : String
  skin_age : Option Int
  concerns : List SkinConcern
  metrics : SkinMetrics
  recommendations : List String
  confidence_score : ℚ
  image_quality_score : ℚ
  deriving DecidableEq, Repr

/-- `SkinAnalysisService._parse_rapidapi_response`. The recommendation list
is taken over the canonical first-seen enumeration of the set; its order is
analysed separately since Python leaves it unspecified. -/
def parseRapidapiResponse (p : RapidApiPayload) : SkinAnalysisResult :=
  let concerns := parseConcerns p
  let metrics := parseMetrics p
  { overall_score := calculateOverallScore concerns metrics
    skin_type := p.skin_type.getD "normal"
    skin_age := p.skin_age
    concerns := concerns
    metrics := metrics
    recommendations := generateRecommendations (recPool concerns)
    confidence_score := p.confidence.getD (17/20)
    image_quality_score := p.image_quality.getD (9/10) }

/-- `SkinAnalysisService._analyze_locally`: the fixed rule-based result. -/
def localAnalysisResult : SkinAnalysisResult :=
  { overall_score := 70
    skin_type := "combination"
    skin_age := Option.none
    concerns := []
    metrics := ⟨65, 45, 70, 75, 60, 72⟩
    recommendations :=
      ["Use a gentle cleanser twice daily",
       "Apply moisturizer after cleansing",
       "Wear SPF 30+ sunscreen daily",
       "Consider adding vitamin C serum"]
    confidence_score := 3/5
    image_quality_score := 4/5 }

/-- `SkinAnalysisService._get_fallback_result`. -/
def fallbackResult : SkinAnalysisResult :=
  { overall_score := 50
    skin_type := "unknown"
    skin_age := Option.none
    concerns := []
    metrics := defaultMetrics
    recommendations :=
      ["Unable to complete full analysis",
       "Please try again with a clearer image",
       "Ensure good lighting and face the camera directly"]
    confidence_score := 0
    image_quality_score := 0 }

/-- Outcome of the provider call made by `_analyze_with_rapidapi`: timeout,
non-200 status, a 200 response whose body cannot be parsed, or a parsed
payload. -/
inductive ProviderOutcome where
  | timeout
  | httpError (status : Nat)
  | malformed
  | success (payload : RapidApiPayload)

/-- The provider call did not yield a usable payload. -/
def ProviderOutcome.failed : ProviderOutcome → Bool
  | .success _ => false
  | _ => true

/-- One invocation's environment: whether `RAPIDAPI_KEY` is set, whether an
image argument was supplied, what the provider call would produce, and an
optional unexpected runtime fault in the local path (the condition the outer
`except Exception` guards against). -/
structure AnalysisEnv where
  hasApiKey : Bool
  hasImage : Bool
  provider : ProviderOutcome
  localFault : Option String

/-- `SkinAnalysisService._analyze_with_rapidapi`: returns `none` when no
image was supplied, the request timed out, the status was not 200, or the
body failed to parse — every such path is caught inside the method. -/
def analyzeWithRapidapi (env : AnalysisEnv) : Option SkinAnalysisResult :=
  if env.hasImage then
    match env.provider with
    | .success p => some (parseRapidapiResponse p)
    | _ => Option.none
  else Option.none

/-- `SkinAnalysisService._analyze_locally`, with an injected runtime fault
modelling the unexpected-failure case the service's outer handler covers. -/
def analyzeLocally (env : AnalysisEnv) : Except String SkinAnalysisResult :=
  match env.localFault with
  | some e => .error e
  | _ => .ok localAnalysisResult

/-- `SkinAnalysisService.analyze_skin`: provider first when a key is set,
falling through to the local path, with the outer `except Exception`
returning `_get_fallback_result()`. -/
def analyzeSkin (env : AnalysisEnv) : Except String SkinAnalysisResult :=
  let body : Except String SkinAnalysisResult :=
    match (if env.hasApiKey then analyzeWithRapidapi env else Option.none) with
    | some r => .ok r
    | _ => analyzeLocally env
  match body with
  | .error _ => .ok fallbackResult
  | .ok r => .ok r

/-! ### Theorems: overall score, pipeline robustness, recommendations, confidence -/

theorem foldl_add_severityWeight (l : List SkinConcern) (a : ℚ) :
    l.foldl (fun acc c => acc + severityWeight c.severity) a
      = a + (l.map (fun c => severityWeight c.severity)).sum := by
  induction l generalizing a with
  | nil => simp
  | cons c t ih => simp [List.foldl_cons, ih, add_assoc]

/-- C3: the overall-score blend is the mean of the five metric scores
(hydration, texture, elasticity, pore-size, tone-evenness) minus the sum of
per-concern severity penalties (none:0, mild:5, moderate:10, severe:15,
very_severe:20), clamped to [0,100] and rounded to one decimal. -/
theorem c3_overall_score_blending :
    (∀ (concerns : List SkinConcern) (m : SkinMetrics),
      calculateOverallScore concerns m =
        roundTo1 (max 0 (min 100
          ((m.hydration_score + m.texture_score + m.elasticity_score +
            m.pore_size_score + m.skin_tone_evenness) / 5 -
           (concerns.map (fun c => severityWeight c.severity)).sum)))) ∧
    severityWeight .none = 0 ∧ severityWeight .mild = 5 ∧
    severityWeight .moderate = 10 ∧ severityWeight .severe = 15 ∧
    severityWeight .very_severe = 20 ∧
    severityWeight .moderate + severityWeight .mild = 15 := by
  refine ⟨fun concerns m => ?_, rfl, rfl, rfl, rfl, rfl, by norm_num [severityWeight]⟩
  unfold calculateOverallScore
  rw [foldl_add_severityWeight, zero_add]
  norm_num [List.sum_cons]
  ring_nf

/-- The outer try/except of `analyze_skin` characterised by the provider path
outcome and the local-path fault. -/
theorem analyzeSkin_eq (env : AnalysisEnv) :
    analyzeSkin env =
      match (if env.hasApiKey then analyzeWithRapidapi env else Option.none),
          env.localFault with
      | some r, _ => .ok r
      | Option.none, some _ => .ok fallbackResult
      | Option.none, Option.none => .ok localAnalysisResult := by
  obtain ⟨key, img, pro, lf⟩ := env
  cases key <;> cases img <;> cases pro <;> cases lf <;> rfl

/-- When there is no API key, no image, or the provider call failed, the
provider path yields nothing. -/
theorem providerPath_none {env : AnalysisEnv}
    (h : env.hasApiKey = false ∨ env.hasImage = false ∨ env.provider.failed = true) :
    (if env.hasApiKey then analyzeWithRapidapi env else Option.none) = Option.none := by
  obtain ⟨key, img, pro, lf⟩ := env
  cases key <;> cases img <;> cases pro <;>
    simp_all [analyzeWithRapidapi, ProviderOutcome.failed]

/-- C6: `analyze_skin` never propagates an exception: every environment yields
an `ok` result; provider failures with a healthy local path fall through to
the rule-based result; and when the local path also faults, the caller gets
the documented fallback with overall_score 50.0, skin_type unknown and
confidence_score 0.0. -/
theorem c6_analyze_skin_never_raises :
    (∀ env : AnalysisEnv, ∃ r, analyzeSkin env = .ok r) ∧
    (∀ env : AnalysisEnv,
      (env.hasApiKey = false ∨ env.hasImage = false ∨ env.provider.failed = true) →
      env.localFault = Option.none →
      analyzeSkin env = .ok localAnalysisResult) ∧
    (∀ (env : AnalysisEnv) (e : String),
      (env.hasApiKey = false ∨ env.hasImage = false ∨ env.provider.failed = true) →
      env.localFault = some e →
      analyzeSkin env = .ok fallbackResult) ∧
    fallbackResult.overall_score = 50 ∧ fallbackResult.skin_type = "unknown" ∧
    fallbackResult.confidence_score = 0 := by
  refine ⟨fun env => ?_, fun env hfail hloc => ?_, fun env e hfail hloc => ?_, rfl, rfl, rfl⟩
  · rw [analyzeSkin_eq]
    rcases hp : (if env.hasApiKey then analyzeWithRapidapi env else Option.none) with _ | r
    · rcases hl : env.localFault with _ | e
      · exact ⟨localAnalysisResult, rfl⟩
      · exact ⟨fallbackResult, rfl⟩
    · exact ⟨r, rfl⟩
  · rw [analyzeSkin_eq, providerPath_none hfail, hloc]
  · rw [analyzeSkin_eq, providerPath_none hfail, hloc]

/-- Witness for C6: a timed-out provider call falls back to the local result;
a timed-out provider call plus a faulting local path yields the documented
fallback. -/
theorem c6_analyze_skin_never_raises_witness :
    analyzeSkin ⟨true, true, .timeout, Option.none⟩ = .ok localAnalysisResult ∧
    analyzeSkin ⟨true, true, .timeout, some "resource exhausted"⟩ = .ok fallbackResult :=
  ⟨c6_analyze_skin_never_raises.2.1 ⟨true, true, .timeout, Option.none⟩
      (Or.inr (Or.inr rfl)) rfl,
   c6_analyze_skin_never_raises.2.2.1 ⟨true, true, .timeout, some "resource exhausted"⟩
      "resource exhausted" (Or.inr (Or.inr rfl)) rfl⟩

theorem foldl_insertFS_nodup (l : List String) (acc : List String) (h : acc.Nodup) :
    (l.foldl insertFS acc).Nodup := by
  induction l generalizing acc with
  | nil => exact h
  | cons a t ih =>
    rw [List.foldl_cons]
    apply ih
    unfold insertFS
    split_ifs with ha
    · exact h
    · rw [List.nodup_append]
      exact ⟨h, List.nodup_singleton a, by simpa [List.disjoint_singleton] using ha⟩

theorem foldl_insertFS_mem (l : List String) (acc : List String) (s : String) :
    s ∈ l.foldl insertFS acc ↔ s ∈ acc ∨ s ∈ l := by
  induction l generalizing acc with
  | nil => simp
  | cons a t ih =>
    rw [List.foldl_cons, ih]
    unfold insertFS
    split_ifs with ha
    · simp only [List.mem_cons]
      constructor
      · tauto
      · rintro (hs | rfl | hs)
        · exact Or.inl hs
        · exact Or.inl ha
        · exact Or.inr hs
    · simp only [List.mem_append, List.mem_singleton, List.mem_cons]
      tauto

theorem dedupFS_nodup (l : List String) : (dedupFS l).Nodup :=
  foldl_insertFS_nodup l [] List.nodup_nil

theorem dedupFS_mem (l : List String) (s : String) : s ∈ dedupFS l ↔ s ∈ l := by
  simp [dedupFS, foldl_insertFS_mem]

/-- A single detected acne concern, used to exercise the recommendation set. -/
def exampleConcerns : List SkinConcern := [⟨"acne", .mild, 4/5, Option.none, []⟩]

/-- C7 counterexample: the recommendation set is materialised as a Python
`set`, whose iteration order is unspecified; a reversed enumeration of the
very same set is admissible and its truncation does not preserve first-seen
order, so the claimed order preservation fails. -/
theorem c7_set_order_not_first_seen :
    isEnumerationOf (recPool exampleConcerns).reverse (recPool exampleConcerns) ∧
    generateRecommendations ((recPool exampleConcerns).reverse) ≠
      (recPool exampleConcerns).take 10 := by
  exact ⟨by decide, by decide⟩

/-- C7 amended: over every admissible set-iteration order, the output has no
duplicate strings, never exceeds the cap of 10, and every element is either a
baseline recommendation or one of the first two lookup-table entries of a
detected concern; all three baselines are guaranteed only when the whole pool
fits inside the cap — and first-seen order is not guaranteed at all. -/
theorem c7_recommendations_dedup_cap (concerns : List SkinConcern) (enum : List String)
    (h : isEnumerationOf enum (recPool concerns)) :
    (generateRecommendations enum).Nodup ∧
    (generateRecommendations enum).length ≤ 10 ∧
    (∀ r ∈ generateRecommendations enum,
      r ∈ baselineRecs ∨ ∃ c ∈ concerns, r ∈ (concernRecommendations c.concern_type).take 2) ∧
    ((recPool concerns).length ≤ 10 → ∀ b ∈ baselineRecs, b ∈ generateRecommendations enum) := by
  obtain ⟨hnd, hsub, hsup⟩ := h
  refine ⟨?_, ?_, ?_, ?_⟩
  · exact (List.take_sublist 10 enum).nodup hnd
  · exact List.length_take_le 10 enum
  · intro r hr
    have hrp : r ∈ recPool concerns := hsub r (List.mem_of_mem_take hr)
    rw [recPool, dedupFS_mem, List.mem_append] at hrp
    rcases hrp with hrp | hrp
    · exact Or.inl hrp
    · rw [List.mem_flatMap] at hrp
      exact Or.inr hrp
  · intro hlen b hb
    have hbp : b ∈ recPool concerns := by
      rw [recPool, dedupFS_mem, List.mem_append]
      exact Or.inl hb
    have hperm : enum.Perm (recPool concerns) :=
      (List.perm_ext_iff_of_nodup hnd (dedupFS_nodup _)).mpr
        (fun s => ⟨fun hs => hsub s hs, fun hs => hsup s hs⟩)
    have hlen2 : enum.length ≤ 10 := by rw [hperm.length_eq]; exact hlen
    rw [generateRecommendations, List.take_of_length_le hlen2]
    exact hsup b hbp

/-- Witness for C7 amended at the canonical enumeration of the acne pool. -/
theorem c7_recommendations_dedup_cap_witness :
    (generateRecommendations (recPool exampleConcerns)).Nodup ∧
    (generateRecommendations (recPool exampleConcerns)).length ≤ 10 ∧
    (∀ r ∈ generateRecommendations (recPool exampleConcerns),
      r ∈ baselineRecs ∨ ∃ c ∈ exampleConcerns,
        r ∈ (concernRecommendations c.concern_type).take 2) ∧
    ((recPool exampleConcerns).length ≤ 10 →
      ∀ b ∈ baselineRecs, b ∈ generateRecommendations (recPool exampleConcerns)) :=
  c7_recommendations_dedup_cap exampleConcerns (recPool exampleConcerns) (by decide)

/-- A successful provider response reporting a low confidence of 0.5. -/
def lowConfidencePayload : RapidApiPayload := { confidence := some (1/2) }

/-- C8 counterexample: the provider-backed confidence is read straight from
the payload (`data.get("confidence", 0.85)`), so a successful provider
response reporting 0.5 yields a provider-backed result whose confidence is
NOT above the local rule-based 0.6. -/
theorem c8_provider_confidence_not_always_above_local :
    (parseRapidapiResponse lowConfidencePayload).confidence_score = 1/2 ∧
    ¬ (localAnalysisResult.confidence_score <
        (parseRapidapiResponse lowConfidencePayload).confidence_score) := by
  refine ⟨rfl, ?_⟩
  have h1 : (parseRapidapiResponse lowConfidencePayload).confidence_score = 1/2 := rfl
  have h2 : localAnalysisResult.confidence_score = 3/5 := rfl
  rw [h1, h2]
  norm_num

/-- C8 amended: the local rule-based confidence 0.6 is strictly below the
provider-backed confidence whenever the payload omits its confidence field
(default 0.85) or reports one above 0.6; the code enforces nothing for other
payloads. -/
theorem c8_local_confidence_below_provider (p : RapidApiPayload)
    (h : p.confidence = Option.none ∨ ∃ c, p.confidence = some c ∧ 3/5 < c) :
    localAnalysisResult.confidence_score < (parseRapidapiResponse p).confidence_score := by
  have hl : localAnalysisResult.confidence_score = 3/5 := rfl
  have hp : (parseRapidapiResponse p).confidence_score = p.confidence.getD (17/20) := rfl
  rw [hl, hp]
  rcases h with h | ⟨c, hc, hcgt⟩
  · rw [h]; norm_num [Option.getD]
  · rw [hc]; simpa [Option.getD] using hcgt

/-- Witness for C8 amended: a payload without a confidence field gives the
0.85 default, above the local 0.6. -/
theorem c8_local_confidence_below_provider_witness :
    localAnalysisResult.confidence_score < (parseRapidapiResponse {}).confidence_score :=
  c8_local_confidence_below_provider {} (Or.inl rfl)

/-! ### 3D face detection entry point (face_detection_service.py, detect_face_3d)

The whole body sits inside `try/except`, and the undecodable-image branch
(`if img is None`) returns the pre-built `Face3DData(detected=False,
num_faces=0)` rather than raising. The MediaPipe landmark refinement and the
width/height ratios are omitted: no claim depends on them, and that stage
also only mutates the already-`ok` result. -/

/-- A successfully decoded image: its dimensions and the Haar cascade's
`(x, y, w, h)` detections on it. -/
structure DecodedImage where
  width : Nat
  height : Nat
  faces : List (Nat × Nat × Nat × Nat)

/-- Area key `f[2] * f[3]` of one Haar detection. -/
def haarArea (f : Nat × Nat × Nat × Nat) : Nat := f.2.2.1 * f.2.2.2

/-- Python `max(faces, key=lambda f: f[2] * f[3])`: first maximum wins. -/
def haarPrimary (h : Nat × Nat × Nat × Nat) (t : List (Nat × Nat × Nat × Nat)) :
    Nat × Nat × Nat × Nat :=
  t.foldl (fun best f => if haarArea best < haarArea f then f else best) h

/-- The fields of the `Face3DData` dataclass the claims inspect; the fields
start at the dataclass defaults `detected=False, num_faces=0,
image_size=(0, 0)`. -/
structure Face3DData where
  detected : Bool
  num_faces : Nat
  face_bounding_box : Option (Nat × Nat × Nat × Nat)
  image_size : Nat × Nat
  deriving DecidableEq, Repr

/-- `detect_face_3d` over the decode outcome (`none` = `cv2.imdecode`
returned `None` on undecodable bytes). Modelled in `Except` to make the
raise/return distinction explicit: every branch of the source returns the
result object, so every branch here is `.ok`. -/
def detectFace3d (decoded : Option DecodedImage) : Except String Face3DData :=
  match decoded with
  | Option.none => .ok ⟨false, 0, Option.none, (0, 0)⟩
  | some img =>
    match img.faces with
    | [] => .ok ⟨false, 0, Option.none, (img.width, img.height)⟩
    | f :: fs =>
      .ok ⟨true, (f :: fs).length, some (haarPrimary f fs), (img.width, img.height)⟩

/-- C10 counterexample: undecodable bytes do NOT surface an error — the call
returns `ok` with `detected = false, num_faces = 0`, the very same tagged
outcome (on those fields) as a valid 640×480 image containing zero faces. -/
theorem c10_undecodable_input_not_fatal :
    detectFace3d Option.none = .ok ⟨false, 0, Option.none, (0, 0)⟩ ∧
    (detectFace3d Option.none).isOk = true ∧
    detectFace3d (some ⟨640, 480, []⟩) = .ok ⟨false, 0, Option.none, (640, 480)⟩ :=
  ⟨rfl, rfl, rfl⟩

/-- C10 amended: the detection pipeline never raises; undecodable bytes yield
the structured result `detected=false, num_faces=0` with `image_size=(0,0)`,
and a decoded image with zero faces yields `detected=false, num_faces=0` with
its true `image_size` — the two differ only in `image_size`, not by an
exception. -/
theorem c10_decode_failure_structured (img : Option DecodedImage) :
    (detectFace3d img).isOk = true ∧
    (img = Option.none → detectFace3d img = .ok ⟨false, 0, Option.none, (0, 0)⟩) ∧
    (∀ d : DecodedImage, img = some d → d.faces = [] →
      detectFace3d img = .ok ⟨false, 0, Option.none, (d.width, d.height)⟩) := by
  refine ⟨?_, fun h => by rw [h]; rfl, fun d hd hf => by rw [hd]; simp [detectFace3d, hf]⟩
  rcases img with _ | d
  · rfl
  · rcases hf : d.faces with _ | ⟨f, fs⟩ <;> simp [detectFace3d, hf, Except.isOk, Except.toBool]

/-- Witness for C10 amended at an undecodable input and at a face-free
640×480 image. -/
theorem c10_decode_failure_structured_witness :
    (detectFace3d Option.none).isOk = true ∧
    detectFace3d (some ⟨640, 480, []⟩) = .ok ⟨false, 0, Option.none, (640, 480)⟩ :=
  ⟨(c10_decode_failure_structured Option.none).1,
   (c10_decode_failure_structured (some ⟨640, 480, []⟩)).2.2 ⟨640, 480, []⟩ rfl rfl⟩

end Skincare
